import Mathlib

/-!
Shallow embedding of the steam.py HTTP client core (`src/steam/http.py`):
the HTTP retry layer, the RSA login pipeline, the trade poller diff, the
trade-offer fetch recovery paths, and the accept-trade confirmation path.

Python dicts whose concrete shape matters are modelled as structures with
`Option` fields (`none` = key absent, so a subscript access raises
`KeyError`); network responses are supplied by environment structures so
every run of the code corresponds to an evaluation of a pure Lean
function.  Python exceptions are values of the `Err` inductive, named
after the exception classes the source raises.
-/

set_option autoImplicit false

namespace SteamHttp

/-- Python exceptions raised by `http.py`, named after the classes in the
source (`errors.*` plus the builtin exceptions the code can raise). -/
inductive Err where
  | invalidCredentials (msg : String)
  | tooManyRequests
  | forbidden
  | notFound
  | httpException
  | loginError (msg : String)
  | valueError (msg : String)
  | clientException (msg : String)
  | steamAuthenticatorError (msg : String)
  | typeError
  | keyError
  | attributeError
  | recursionError
  deriving DecidableEq, Repr

/-- The value produced by `json_or_text`: either plain text or a decoded
JSON object (field values coarsely kept as strings). -/
inductive PyData where
  | text (s : String)
  | obj (fields : List (String × String))
  deriving DecidableEq, Repr

/-- The fixed body that `request` compares every response against
(src/steam/http.py line 112). -/
def accessDeniedText : String :=
  "Access is denied. Retrying will not help. Please verify your <pre>key=</pre> parameter"

/-- One HTTP response as seen by `request` after `json_or_text`. -/
structure HttpResponse where
  status : Nat
  data : PyData
  deriving DecidableEq, Repr

/-- The retry loop body of `HTTPClient.request` (src/steam/http.py lines
102-136).  `resp n` is the response to the n-th attempt, `tries` the loop
counter, and the second argument the remaining iterations of
`range(5)`.  Returns the Python result together with the list of
`asyncio.sleep` delays performed and the number of attempts issued.
When the iterations are exhausted the code falls out of the loop and
raises `HTTPException(r, data)`. -/
def request_aux (resp : Nat → HttpResponse) (tries : Nat) :
    Nat → Except Err PyData × List Nat × Nat
  | 0 => (.error .httpException, [], 0)
  | rem + 1 =>
    let r := resp tries
    let d := r.data
    if d = .text accessDeniedText then
      (.error (.invalidCredentials "Invalid API key"), [], 1)
    else if 200 ≤ r.status ∧ r.status < 300 then
      (.ok d, [], 1)
    else if r.status = 429 then
      (.error .tooManyRequests, [], 1)
    else if r.status = 500 ∨ r.status = 502 then
      let rest := request_aux resp (tries + 1) rem
      (rest.1, (1 + tries * 2) :: rest.2.1, rest.2.2 + 1)
    else if r.status = 403 then
      (.error .forbidden, [], 1)
    else if r.status = 404 then
      (.error .notFound, [], 1)
    else
      (.error .httpException, [], 1)

/-- `HTTPClient.request`: `for tries in range(5)` starting at `tries = 0`. -/
def request (resp : Nat → HttpResponse) : Except Err PyData × List Nat × Nat :=
  request_aux resp 0 5

/-- The JSON body answered by `login/getrsakey/`; `none` models an absent
key, whose subscript raises `KeyError` (src/steam/http.py lines 183-188).
The hex-string moduli are kept already parsed as naturals. -/
structure RsaKeyData where
  publickey_mod : Option Nat
  publickey_exp : Option Nat
  timestamp : Option String
  deriving DecidableEq, Repr

/-- `rsa.PublicKey(rsa_mod, rsa_exp)`. -/
structure RsaKey where
  rsa_mod : Nat
  rsa_exp : Nat
  deriving DecidableEq, Repr

/-- The `try` body of `_fetch_rsa_params` lines 183-187: reading the three
fields; any missing field raises `KeyError`, modelled as `none`. -/
def parse_rsa (d : RsaKeyData) : Option (RsaKey × String) :=
  match d.publickey_mod, d.publickey_exp, d.timestamp with
  | some m, some e, some t => some (⟨m, e⟩, t)
  | _, _, _ => none

/-- `maximum_repetitions` from `_fetch_rsa_params` (line 173). -/
def maximum_repetitions : Nat := 5

/-- `HTTPClient._fetch_rsa_params` (lines 172-192).  `resp n` is the body
of the n-th `getrsakey` request of the whole login, `idx` the index of the
request this invocation issues, `rep` the `current_repetitions` argument.
The transport layer is taken as succeeding, so the `LoginError` wrapper
around request failures (lines 178-182) is not reachable here.  Returns
the Python result together with the number of requests issued. -/
def fetch_rsa_params (resp : Nat → RsaKeyData) (idx rep : Nat) :
    Except Err (RsaKey × String) × Nat :=
  match parse_rsa (resp idx) with
  | some kt => (.ok kt, 1)
  | none =>
    if h : rep < maximum_repetitions then
      let rest := fetch_rsa_params resp (idx + 1) (rep + 1)
      (rest.1, rest.2 + 1)
    else
      (.error (.valueError "Could not obtain rsa-key"), 1)
termination_by maximum_repetitions - rep
decreasing_by omega

/-- The JSON body answered by `login/dologin/`; `none` models an absent
key. -/
structure LoginResponse where
  requires_twofactor : Option Bool
  captcha_needed : Option Bool
  success : Option Bool
  message : Option String
  transfer_parameters : Option (List (String × String))
  transfer_urls : Option (List String)
  deriving DecidableEq, Repr

/-- `b64encode(rsa.encrypt(password, rsa_key))` (line 169): the encryption
of `password` under `key`, kept symbolic so that which key encrypted which
submission stays visible. -/
structure EncPw where
  password : String
  key : RsaKey
  deriving DecidableEq, Repr

/-- One POST to `login/dologin/` (lines 195-209): the `rsatimestamp`,
encrypted `password` and `twofactorcode` fields of its form data. -/
structure Submission where
  rsatimestamp : String
  password : EncPw
  twofactorcode : String
  deriving DecidableEq, Repr

/-- Environment of one `login` call: credentials and the remote side's
responses.  `totp` stands for `guard.generate_one_time_code` (defined in
`guard.py`, outside the embedded file) and `prompt` for the
`input(...)` result. -/
structure LoginEnv where
  password : String
  shared_secret : Option String
  totp : String → String
  prompt : String
  rsaResp : Nat → RsaKeyData
  loginResp : Nat → LoginResponse
  homeSessionId : Option String
  profileResult : Except Err Unit

/-- `HTTPClient.code` (lines 96-100): derive a one-time code locally when
a shared secret is configured, else prompt externally.  Python truthiness
makes both `None` and the empty string fall back to the prompt. -/
def code (env : LoginEnv) : String :=
  match env.shared_secret with
  | none => env.prompt
  | some s => if s == "" then env.prompt else env.totp s

/-- Result of `_send_login_request` / `_send_login`, together with the
trace needed by the claims: the successful RSA fetches (key and
timestamp, in order) and the `dologin` submissions (in order). -/
structure SendLoginResult where
  result : Except Err LoginResponse
  fetches : List (RsaKey × String)
  subs : List Submission
  deriving Repr

/-- The `except Exception as e: raise errors.HTTPException(e)` wrapper of
`_send_login` (lines 214-215): any failure of the `try` body — including
a failure of the recursive `_send_login_request` call — resurfaces as
`HTTPException`. -/
def wrap_http : Except Err LoginResponse → Except Err LoginResponse
  | .error _ => .error .httpException
  | .ok r => .ok r

/-- `HTTPClient._send_login_request` (lines 166-170) with the body of
`_send_login` (lines 194-215) inlined at its tail call: fetch a fresh RSA
key (requests starting at index `r`), encrypt the password under it, and
POST `login/dologin/` (the `l`-th submission) with `rsatimestamp` set to
the freshly fetched timestamp and `twofactorcode` to
`self._one_time_code or ''` (`otc`).  A truthy `requires_twofactor`
obtains a code via `code` and restarts the whole cycle; a missing
`requires_twofactor` key raises `KeyError`, which the `except` clause
wraps into `HTTPException`.  The fuel bounds the two-factor recursion,
which Python leaves unbounded (`recursionError` when exhausted — in the
source such an error would likewise surface wrapped as `HTTPException`,
see `wrap_http` at the call site). -/
def send_login_request (env : LoginEnv) (otc : Option String) (r l : Nat) :
    Nat → SendLoginResult
  | 0 => ⟨.error .recursionError, [], []⟩
  | fuel + 1 =>
    match fetch_rsa_params env.rsaResp r 0 with
    | (.error e, _) => ⟨.error e, [], []⟩
    | (.ok kt, used) =>
      let pw : EncPw := ⟨env.password, kt.1⟩
      let resp := env.loginResp l
      let sub : Submission := ⟨kt.2, pw, otc.getD ""⟩
      match resp.requires_twofactor with
      | none => ⟨.error .httpException, [kt], [sub]⟩
      | some tf =>
        if tf then
          let rest := send_login_request env (some (code env)) (r + used) (l + 1) fuel
          ⟨wrap_http rest.result, kt :: rest.fetches, sub :: rest.subs⟩
        else ⟨.ok resp, [kt], [sub]⟩

/-- `HTTPClient._send_login` (lines 194-215) in isolation, for a
submission whose `rsatimestamp` is `ts` and whose encrypted password is
`pw`; `r` is the index of the next `getrsakey` request and `l` the index
of this submission.  `send_login_request_succ` below proves it is the
tail of `send_login_request`. -/
def send_login (env : LoginEnv) (otc : Option String) (ts : String) (pw : EncPw)
    (r l fuel : Nat) : SendLoginResult :=
  let resp := env.loginResp l
  let sub : Submission := ⟨ts, pw, otc.getD ""⟩
  match resp.requires_twofactor with
  | none => ⟨.error .httpException, [], [sub]⟩
  | some tf =>
    if tf then
      let rest := send_login_request env (some (code env)) r (l + 1) fuel
      ⟨wrap_http rest.result, rest.fetches, sub :: rest.subs⟩
    else ⟨.ok resp, [], [sub]⟩

/-- Observable side effects of `login` (lines 138-157), in program
order. -/
inductive Action where
  | post (url : String)
  | setLoggedIn (b : Bool)
  | dispatch (event : String)
  | createTask (task : String)
  | closeSession
  deriving DecidableEq, Repr

/-- The `LoginError` message of the captcha check (line 147). -/
def captcha_message : String := "A captcha code is required, please try again later"

/-- Modelled from the spec: `login` starts `self._poll_notifications()`
as a background task (line 157), but `_poll_notifications` is not among
the embedded source files; the spec states that on success the Trade
Poller is started as the background task, so the task created at login is
identified with the Trade Poller. -/
def trade_poller_task : String := "trade_poller"

/-- Result and side-effect trace of one `HTTPClient.login` call. -/
structure LoginOutcome where
  result : Except Err Unit
  actions : List Action
  flow : SendLoginResult

/-- `HTTPClient.login` (lines 138-157): run `_send_login_request` (with
`_one_time_code` initially `None`), fail on a response containing the
`captcha_needed` key, then `_assert_valid_credentials` (lines 225-230:
`KeyError` on a missing `success` key; on falsy success close the session
and raise `InvalidCredentials(message)`; `AttributeError` when the
session-id pattern does not match the home page), then
`_perform_redirects` (lines 217-223: `HTTPException` when
`transfer_parameters` is absent, `KeyError` when `transfer_urls` is, else
POST the parameters to every transfer url), then set `_logged_in`,
dispatch `login`, fetch the profile and start the background polling
task.  The transfer POSTs and the home-page GET are taken as succeeding
at the transport level. -/
def login (env : LoginEnv) (fuel : Nat) : LoginOutcome :=
  let flow := send_login_request env none 0 0 fuel
  match flow.result with
  | .error e => ⟨.error e, [], flow⟩
  | .ok resp =>
    if resp.captcha_needed.isSome then
      ⟨.error (.loginError captcha_message), [], flow⟩
    else
      match resp.success with
      | none => ⟨.error .keyError, [], flow⟩
      | some ok =>
        if !ok then
          match resp.message with
          | none => ⟨.error .keyError, [.closeSession], flow⟩
          | some m => ⟨.error (.invalidCredentials m), [.closeSession], flow⟩
        else
          match env.homeSessionId with
          | none => ⟨.error .attributeError, [], flow⟩
          | some _sid =>
            match resp.transfer_parameters with
            | none => ⟨.error .httpException, [], flow⟩
            | some _params =>
              match resp.transfer_urls with
              | none => ⟨.error .keyError, [], flow⟩
              | some urls =>
                let posts := urls.map Action.post
                match env.profileResult with
                | .error e =>
                  ⟨.error e, posts ++ [.setLoggedIn true, .dispatch "login"], flow⟩
                | .ok _ =>
                  ⟨.ok (), posts ++
                    [.setLoggedIn true, .dispatch "login", .createTask trade_poller_task], flow⟩

/-- A remote side whose n-th `getrsakey` response is well-formed, with a
distinct key and timestamp per request. -/
def good_rsa : Nat → RsaKeyData :=
  fun n => ⟨some (100 + n), some 17, some (if n == 0 then "ts0" else "ts1")⟩

/-- A fully successful `dologin` response. -/
def resp_success : LoginResponse :=
  ⟨some false, none, some true, some "ok", some [("steamid", "76561199")],
    some ["https://store/transfer"]⟩

/-- A `dologin` response demanding a two-factor code. -/
def resp_twofactor : LoginResponse := ⟨some true, none, none, none, none, none⟩

/-- A `dologin` response carrying the `captcha_needed` key while also
signalling a two-factor requirement. -/
def resp_captcha_tf : LoginResponse := ⟨some true, some true, none, none, none, none⟩

/-- A `dologin` response carrying the `captcha_needed` key and a falsy
`requires_twofactor`. -/
def resp_captcha : LoginResponse := ⟨some false, some true, some true, some "ok", some [], some []⟩

/-- Login environment: valid credentials, no two-factor requirement. -/
def env_valid : LoginEnv :=
  ⟨"hunter2", some "shhh", (fun s => String.append "otp-" s), "prompted", good_rsa,
    (fun _ => resp_success), some "sessionid123", .ok ()⟩

/-- Login environment: the response carries `captcha_needed` and a falsy
`requires_twofactor`. -/
def env_captcha : LoginEnv :=
  ⟨"hunter2", none, (fun s => s), "prompted", good_rsa,
    (fun _ => resp_captcha), some "sessionid123", .ok ()⟩

/-- Login environment: the first response carries `captcha_needed` while
also signalling a two-factor requirement; the second succeeds. -/
def env_captcha_tf : LoginEnv :=
  ⟨"hunter2", none, (fun s => s), "prompted", good_rsa,
    (fun l => if l == 0 then resp_captcha_tf else resp_success), some "sessionid123", .ok ()⟩

/-- Login environment: the first response demands a two-factor code, the
second succeeds; a shared secret is configured. -/
def env_twofactor : LoginEnv :=
  ⟨"hunter2", some "shhh", (fun s => String.append "otp-" s), "prompted", good_rsa,
    (fun l => if l == 0 then resp_twofactor else resp_success), some "sessionid123", .ok ()⟩

/-- A `TradeOfferSnapshot`: a Python dict from trade-offer id to its
state (the state value abstracted to a number), as an insertion-ordered
association list whose keys are unique (the spec's snapshot
invariant). -/
abbrev Snap := List (String × Nat)

/-- Python `d[k]` lookup on a snapshot. -/
def pyLookup (k : String) (d : Snap) : Option Nat :=
  (d.find? (fun kv => kv.1 == k)).map (fun kv => kv.2)

/-- Python `==` between two dicts: same size and every entry of one
present in the other (sufficient for dicts with unique keys). -/
def dictEq (a b : Snap) : Bool :=
  a.length == b.length && a.all (fun kv => pyLookup kv.1 b == some kv.2)

/-- One iteration body of the `while` loop of `_poll_trades` (lines
337-346), for cache `trades_cache` and freshly fetched `trades`.  If the
dicts compare equal nothing happens.  Otherwise the code runs
`for trades_cache, trade in zip(trades_cache, trades)`: the `zip` of the
two key iterables.  When both snapshots are nonempty the first loop
iteration rebinds `trades_cache` to the first key of the old snapshot (a
string) and evaluates `trades_cache[trades_cache]` — subscripting a
string with a string — which raises `TypeError` before any dispatch.
When either snapshot is empty the zip is empty, the loop body never
runs, and line 345 replaces the cache with `trades`.  Returns the list
of offer ids dispatched via `trade_receive` and the new cache. -/
def poll_trades_iteration (trades_cache trades : Snap) :
    Except Err (List String × Snap) :=
  if dictEq trades trades_cache then .ok ([], trades_cache)
  else
    match trades_cache, trades with
    | _ :: _, _ :: _ => .error .typeError
    | _, _ => .ok ([], trades)

/-- Modelled from the spec: the diff the spec prescribes for the trade
poller — exactly the ids present in both snapshots whose values differ,
never an id unique to one snapshot (spec sections 3, 8 and 9). -/
def spec_trade_diff (a b : Snap) : List String :=
  (b.filter (fun kv =>
    match pyLookup kv.1 a with
    | some v => v != kv.2
    | none => false)).map (fun kv => kv.1)

/-- Outcome of one `GetTradeOffers` request inside `_get_trade_offers`:
a successful body (already projected to `offers['response']`), a
`ValueError` (the `json` decode failure a dead session produces, which
the code treats as the session-invalidation signal), a transport
disconnect (`aiohttp.ClientOSError` / `ServerDisconnectedError`), or any
other exception, which propagates. -/
inductive FetchOutcome where
  | success (snap : Snap)
  | valueError
  | disconnect
  | failure (e : Err)

/-- Environment of `_get_trade_offers`: the outcome of the n-th fetch
and the result of the `login(...)` call performed on the re-login
path. -/
structure PollerEnv where
  fetch : Nat → FetchOutcome
  relogin : Except Err Unit

/-- `HTTPClient._get_trade_offers` (lines 348-365).  On `ValueError` the
code re-logs-in and recurses; on a disconnect it recurses; in both
`except` branches the recursive call's value is *not* returned, so after
a completed recovery the function falls off its end and returns `None`
(`Option.none`), while errors of the recursive call still propagate.
Only the no-exception `else` branch returns the fetched snapshot.  The
fuel bounds the recursion, which Python bounds by its recursion limit;
also returns the number of fetches issued. -/
def get_trade_offers (env : PollerEnv) (n : Nat) :
    Nat → Except Err (Option Snap) × Nat
  | 0 => (.error .recursionError, 0)
  | fuel + 1 =>
    match env.fetch n with
    | .success s => (.ok (some s), 1)
    | .valueError =>
      match env.relogin with
      | .error e => (.error e, 1)
      | .ok _ =>
        let rest := get_trade_offers env (n + 1) fuel
        (rest.1.map (fun _ => none), rest.2 + 1)
    | .disconnect =>
      let rest := get_trade_offers env (n + 1) fuel
      (rest.1.map (fun _ => none), rest.2 + 1)
    | .failure e => (.error e, 1)

/-- Poller environment whose first fetch hits a transport disconnect and
whose second fetch succeeds. -/
def env_disconnect : PollerEnv :=
  ⟨fun n => if n == 0 then .disconnect else .success [("123", 2)], .ok ()⟩

/-- Poller environment whose first fetch hits the session-invalidation
signal (`ValueError`), re-login succeeding, and whose second fetch
succeeds. -/
def env_relogin : PollerEnv :=
  ⟨fun n => if n == 0 then .valueError else .success [("123", 2)], .ok ()⟩

/-- Environment of one `accept_user_trade` call past its accept POST:
whether the response's `needs_mobile_confirmation` field is truthy, the
response itself, and the outcomes of the n-th
`_confirmation_manager.get_trade_confirmation` lookup and of the n-th
`conf.confirm()` call. -/
structure AcceptEnv where
  needs_mobile_confirmation : Bool
  accept_data : PyData
  lookup : Nat → Except Err Unit
  confirm : Nat → PyData

/-- What `accept_user_trade` returns: the raw response when no mobile
confirmation is needed, or the confirmation handle `conf`. -/
inductive AcceptResult where
  | data (d : PyData)
  | confirmation (n : Nat)
  deriving DecidableEq, Repr

/-- Side effects of one `accept_user_trade` call: `asyncio.sleep`
delays, number of confirmation lookups, number of confirm attempts. -/
structure AcceptTrace where
  sleeps : List Nat
  lookups : Nat
  confirms : Nat
  deriving DecidableEq, Repr

/-- The `for tries in range(3)` loop of `accept_user_trade` (lines
390-399).  The body either returns the confirmation — when
`conf.confirm()` answers a dict — or raises: a lookup failure is
re-raised by the `except` clause, and a non-dict confirm response
reaches the unconditional `raise errors.SteamAuthenticatorError(...)`
ending the body, so no iteration beyond the first is reachable and the
post-loop `ClientException` (line 400) is dead code.  Returns the result
plus the number of lookups and confirm attempts. -/
def accept_confirm_loop (env : AcceptEnv) (tries : Nat) :
    Nat → Except Err AcceptResult × Nat × Nat
  | 0 => (.error (.clientException "Couldn\x27t find a matching confirmation"), 0, 0)
  | _rem + 1 =>
    match env.lookup tries with
    | .error e => (.error e, 1, 0)
    | .ok _ =>
      match env.confirm tries with
      | .obj _fields => (.ok (.confirmation tries), 1, 1)
      | .text _s =>
        (.error (.steamAuthenticatorError
          "Failed to except the trade, see the log for the response"), 1, 1)

/-- Python truthiness of an optional string attribute: `None` and the
empty string are falsy. -/
def truthy_str : Option String → Bool
  | none => false
  | some s => s != ""

/-- `HTTPClient.accept_user_trade` (lines 375-403) after the accept
POST: when the response's `needs_mobile_confirmation` is truthy and
`self.identity_secret` is truthy, sleep 2 seconds and run the
confirmation loop; with no identity secret raise
`ClientException("Accepting trades requires an identity_secret")`
without any lookup; with no confirmation needed return the response. -/
def accept_user_trade (identity_secret : Option String) (env : AcceptEnv) :
    Except Err AcceptResult × AcceptTrace :=
  if env.needs_mobile_confirmation then
    if truthy_str identity_secret then
      let loop := accept_confirm_loop env 0 3
      (loop.1, ⟨[2], loop.2.1, loop.2.2⟩)
    else
      (.error (.clientException "Accepting trades requires an identity_secret"), ⟨[], 0, 0⟩)
  else
    (.ok (.data env.accept_data), ⟨[], 0, 0⟩)

/-- Accept environment that demands mobile confirmation, whose lookups
succeed and whose confirm attempts all answer a non-dict error text. -/
def env_accept_needs : AcceptEnv :=
  ⟨true, .text "resp", fun _ => .ok (), fun _ => .text "confirm failed"⟩

end SteamHttp

namespace SteamHttp

/-- Unfolding step for a 500/502 attempt whose body is not the
access-denied text: the code sleeps `1 + tries * 2` seconds and retries. -/
theorem request_aux_retry (resp : Nat → HttpResponse) (tries rem : Nat)
    (hst : (resp tries).status = 500 ∨ (resp tries).status = 502)
    (hd : (resp tries).data ≠ .text accessDeniedText) :
    request_aux resp tries (rem + 1) =
      ((request_aux resp (tries + 1) rem).1,
        (1 + tries * 2) :: (request_aux resp (tries + 1) rem).2.1,
        (request_aux resp (tries + 1) rem).2.2 + 1) := by
  have h2 : ¬(200 ≤ (resp tries).status ∧ (resp tries).status < 300) := by
    rcases hst with h | h <;> omega
  have h4 : (resp tries).status ≠ 429 := by rcases hst with h | h <;> omega
  simp only [request_aux, if_neg hd, if_neg h2, if_neg h4, if_pos hst]

/-- A response whose body is the fixed access-denied text makes `request`
raise `InvalidCredentials` at once, whatever the status. -/
theorem request_aux_access_denied (resp : Nat → HttpResponse) (tries rem : Nat)
    (h : (resp tries).data = .text accessDeniedText) :
    request_aux resp tries (rem + 1) =
      (.error (.invalidCredentials "Invalid API key"), [], 1) := by
  simp [request_aux, h]

/-- When every remaining attempt yields a 500/502 with a body different
from the access-denied text, the loop sleeps `1 + tries * 2` at every
attempt, exhausts its iterations and raises `HTTPException`. -/
theorem request_aux_all_server_err (resp : Nat → HttpResponse) :
    ∀ k tries,
      (∀ i < k, ((resp (tries + i)).status = 500 ∨ (resp (tries + i)).status = 502) ∧
        (resp (tries + i)).data ≠ .text accessDeniedText) →
      request_aux resp tries k =
        (.error .httpException, (List.range k).map (fun i => 1 + (tries + i) * 2), k) := by
  intro k
  induction k with
  | zero => intro tries _; rfl
  | succ k ih =>
    intro tries h
    have h0 := h 0 (by omega)
    rw [Nat.add_zero] at h0
    rw [request_aux_retry resp tries k h0.1 h0.2]
    have hrec := ih (tries + 1) (by
      intro i hi
      have := h (i + 1) (by omega)
      rwa [show tries + (i + 1) = tries + 1 + i by omega] at this)
    rw [hrec]
    have hlist : (1 + tries * 2) :: (List.range k).map (fun i => 1 + (tries + 1 + i) * 2)
        = (List.range (k + 1)).map (fun i => 1 + (tries + i) * 2) := by
      rw [List.range_succ_eq_map, List.map_cons, List.map_map]
      simp only [Nat.add_zero]
      congr 1
      apply List.map_congr_left
      intro a _
      simp only [Function.comp_apply, Nat.succ_eq_add_one]
      omega
    rw [hlist]

end SteamHttp

namespace SteamHttp

/-- C5 (amended): for every HTTP request all of whose responses are
500/502 with bodies different from the fixed access-denied text, the
request is attempted 5 times with sleep delays of exactly 1, 3, 5, 7 and
9 seconds (delay `1 + 2 * attempt` for attempts 0-4), and raises
`HTTPException` only after the 5th attempt has failed. -/
theorem c5_server_error_retry (resp : Nat → HttpResponse)
    (h : ∀ n < 5, ((resp n).status = 500 ∨ (resp n).status = 502) ∧
      (resp n).data ≠ .text accessDeniedText) :
    request resp = (.error .httpException, [1, 3, 5, 7, 9], 5) := by
  have h' : ∀ i < 5, ((resp (0 + i)).status = 500 ∨ (resp (0 + i)).status = 502) ∧
      (resp (0 + i)).data ≠ .text accessDeniedText := by
    intro i hi; simpa using h i hi
  exact request_aux_all_server_err resp 5 0 h'

/-- C5 witness: a run in which every response is a plain 502. -/
theorem c5_server_error_retry_witness :
    request (fun _ => ⟨502, PyData.text "bad gateway"⟩) =
      (.error .httpException, [1, 3, 5, 7, 9], 5) :=
  c5_server_error_retry _ (by intro n _; exact ⟨Or.inr rfl, by decide⟩)

/-- C5 counterexample: a request receiving only 500 responses whose body
is the access-denied text is not retried at all — the access-denied check
runs before the status-code handling, so `InvalidCredentials` is raised
on the first attempt with no sleeps, not `HTTPException` after five. -/
theorem c5_counterexample :
    (∀ n, ((fun _ => ⟨500, PyData.text accessDeniedText⟩ : Nat → HttpResponse) n).status = 500) ∧
    request (fun _ => ⟨500, PyData.text accessDeniedText⟩) =
      (.error (.invalidCredentials "Invalid API key"), [], 1) ∧
    (request (fun _ => ⟨500, PyData.text accessDeniedText⟩)).2.2 ≠ 5 :=
  have hreq : request (fun _ => ⟨500, PyData.text accessDeniedText⟩) =
      (.error (.invalidCredentials "Invalid API key"), [], 1) :=
    request_aux_access_denied _ 0 4 rfl
  ⟨fun _ => rfl, hreq, by rw [hreq]; decide⟩

/-- C10: every HTTP request whose first response body equals the fixed
access-denied text raises `InvalidCredentials` with message
"Invalid API key" on the first attempt, with no sleeps, before any
status-code handling — the status is arbitrary, including 2xx. -/
theorem c10_access_denied_precedence (resp : Nat → HttpResponse)
    (h : (resp 0).data = .text accessDeniedText) :
    request resp = (.error (.invalidCredentials "Invalid API key"), [], 1) :=
  request_aux_access_denied resp 0 4 h

/-- C10 witness: the access-denied body short-circuits even a 200 OK. -/
theorem c10_access_denied_precedence_witness :
    request (fun _ => ⟨200, PyData.text accessDeniedText⟩) =
      (.error (.invalidCredentials "Invalid API key"), [], 1) :=
  c10_access_denied_precedence _ rfl

/-- A well-formed `getrsakey` response ends the fetch at once with one
request. -/
theorem fetch_rsa_params_immediate (resp : Nat → RsaKeyData) (idx rep : Nat)
    (kt : RsaKey × String) (h : parse_rsa (resp idx) = some kt) :
    fetch_rsa_params resp idx rep = (.ok kt, 1) := by
  rw [fetch_rsa_params, h]

/-- When the `k` responses after `idx` (inclusive) are all malformed and
`rep + k` equals `maximum_repetitions`, the fetch runs its remaining
retries and fails having issued `k + 1` requests. -/
theorem fetch_rsa_all_malformed (resp : Nat → RsaKeyData) :
    ∀ k idx rep, rep + k = maximum_repetitions →
      (∀ i, i ≤ k → parse_rsa (resp (idx + i)) = none) →
      fetch_rsa_params resp idx rep =
        (.error (.valueError "Could not obtain rsa-key"), k + 1) := by
  intro k
  induction k with
  | zero =>
    intro idx rep hrep h
    have h0 := h 0 (Nat.le_refl 0)
    rw [Nat.add_zero] at h0
    rw [fetch_rsa_params, h0]
    have hge : ¬(rep < maximum_repetitions) := by omega
    simp [hge]
  | succ k ih =>
    intro idx rep hrep h
    have h0 := h 0 (by omega)
    rw [Nat.add_zero] at h0
    have hlt : rep < maximum_repetitions := by omega
    have hrec := ih (idx + 1) (rep + 1) (by omega) (by
      intro i hi
      have := h (i + 1) (by omega)
      rwa [show idx + (i + 1) = idx + 1 + i by omega] at this)
    rw [fetch_rsa_params, h0]
    simp [hlt, hrec]

/-- `send_login_request` at positive fuel factors into its RSA fetch
followed by `send_login` on the freshly encrypted password. -/
theorem send_login_request_succ (env : LoginEnv) (otc : Option String) (r l fuel : Nat) :
    send_login_request env otc r l (fuel + 1) =
      match fetch_rsa_params env.rsaResp r 0 with
      | (.error e, _) => ⟨.error e, [], []⟩
      | (.ok kt, used) =>
        let step := send_login env otc kt.2 ⟨env.password, kt.1⟩ (r + used) l fuel
        ⟨step.result, kt :: step.fetches, step.subs⟩ := by
  rcases hf : fetch_rsa_params env.rsaResp r 0 with ⟨res, used⟩
  simp only [send_login_request]
  rw [hf]
  cases res with
  | error e => rfl
  | ok kt =>
    cases htf : (env.loginResp l).requires_twofactor with
    | none => simp [send_login, htf]
    | some tf => cases tf <;> simp [send_login, htf]

/-- Whatever happens afterwards, `_send_login` always performs its own
submission first, with the timestamp, password and code it was given. -/
theorem send_login_subs_head (env : LoginEnv) (otc : Option String) (ts : String)
    (pw : EncPw) (r l fuel : Nat) :
    ∃ tail, (send_login env otc ts pw r l fuel).subs = ⟨ts, pw, otc.getD ""⟩ :: tail := by
  cases htf : (env.loginResp l).requires_twofactor with
  | none => exact ⟨[], by simp [send_login, htf]⟩
  | some tf =>
    cases tf with
    | false => exact ⟨[], by simp [send_login, htf]⟩
    | true =>
      exact ⟨(send_login_request env (some (code env)) r (l + 1) fuel).subs,
        by simp [send_login, htf]⟩

/-- In every run the submissions use, in order, exactly the timestamps of
the successful RSA fetches, and their passwords are encrypted under
exactly the keys of those fetches: no submission reuses a challenge. -/
theorem send_login_request_aligned (env : LoginEnv) :
    ∀ fuel (otc : Option String) (r l : Nat),
      ((send_login_request env otc r l fuel).subs).map Submission.rsatimestamp =
        ((send_login_request env otc r l fuel).fetches).map Prod.snd ∧
      ((send_login_request env otc r l fuel).subs).map Submission.password =
        ((send_login_request env otc r l fuel).fetches).map
          (fun kt => EncPw.mk env.password kt.1) := by
  intro fuel
  induction fuel with
  | zero => intro otc r l; exact ⟨rfl, rfl⟩
  | succ fuel ih =>
    intro otc r l
    rcases hf : fetch_rsa_params env.rsaResp r 0 with ⟨res, used⟩
    simp only [send_login_request]
    rw [hf]
    cases res with
    | error e => exact ⟨rfl, rfl⟩
    | ok kt =>
      cases htf : (env.loginResp l).requires_twofactor with
      | none => simp [htf]
      | some tf =>
        cases tf with
        | false => simp [htf]
        | true =>
          have hrec := ih (some (code env)) (r + used) (l + 1)
          simp only [htf]
          simp
          exact ⟨hrec.1, hrec.2⟩

/-- `_send_login` version of the alignment: its own submission uses the
caller-fetched timestamp and all later submissions use later fetches. -/
theorem send_login_aligned (env : LoginEnv) (otc : Option String) (ts : String)
    (pw : EncPw) (r l fuel : Nat) :
    ((send_login env otc ts pw r l fuel).subs).map Submission.rsatimestamp =
      ts :: ((send_login env otc ts pw r l fuel).fetches).map Prod.snd := by
  cases htf : (env.loginResp l).requires_twofactor with
  | none => simp [send_login, htf]
  | some tf =>
    cases tf with
    | false => simp [send_login, htf]
    | true =>
      have hrec := (send_login_request_aligned env fuel (some (code env)) r (l + 1)).1
      simp [send_login, htf]
      exact hrec

/-- A run whose first `dologin` response does not demand two-factor
consists of exactly one fetch and one submission, and returns that
response. -/
theorem send_login_request_one (env : LoginEnv) (otc : Option String)
    (r l fuel used : Nat) (kt : RsaKey × String)
    (hfetch : fetch_rsa_params env.rsaResp r 0 = (.ok kt, used))
    (htf : (env.loginResp l).requires_twofactor = some false) :
    send_login_request env otc r l (fuel + 1) =
      ⟨.ok (env.loginResp l), [kt], [⟨kt.2, ⟨env.password, kt.1⟩, otc.getD ""⟩]⟩ := by
  simp only [send_login_request]
  rw [hfetch]
  simp [htf]

end SteamHttp

namespace SteamHttp

/-- C2: for every run of the RSA key fetch in which each of the first 6
responses is malformed (`parse_rsa` finds `publickey_mod`,
`publickey_exp` or `timestamp` missing), the fetch issues exactly
`maximum_repetitions + 1 = 6` requests — the initial attempt plus
exactly 5 retries — and then fails with
`ValueError("Could not obtain rsa-key")` (the error the spec calls
`KeyFetchError`); since only the first 6 responses are constrained, no
further retry is ever requested. -/
theorem c2_rsa_retry_bound (resp : Nat → RsaKeyData)
    (h : ∀ n, n ≤ maximum_repetitions → parse_rsa (resp n) = none) :
    fetch_rsa_params resp 0 0 =
      (.error (.valueError "Could not obtain rsa-key"), maximum_repetitions + 1) :=
  fetch_rsa_all_malformed resp maximum_repetitions 0 0 (by omega)
    (fun i hi => by simpa using h i hi)

/-- C2 witness: every response missing all fields gives 6 requests and
the failure. -/
theorem c2_rsa_retry_bound_witness :
    fetch_rsa_params (fun _ => ⟨none, none, none⟩) 0 0 =
      (.error (.valueError "Could not obtain rsa-key"), 6) :=
  c2_rsa_retry_bound _ (fun _ _ => rfl)

/-- C8: for every login submission whose response signals a two-factor
requirement, a one-time code is obtained per `code` (generated locally
when a shared secret is configured, otherwise prompted externally) and
the whole encode-and-submit cycle restarts: the next submission carries
the timestamp of a fresh RSA fetch and a password freshly encrypted
under that fetch's key, and — by the alignment conjunct — every
submission's timestamp is that of its own fetch, so the stale challenge
`ts` is never resubmitted. -/
theorem c8_twofactor_restart (env : LoginEnv) (otc : Option String) (ts : String)
    (pw : EncPw) (r l fuel used : Nat) (kt : RsaKey × String)
    (htf : (env.loginResp l).requires_twofactor = some true)
    (hfetch : fetch_rsa_params env.rsaResp r 0 = (.ok kt, used)) :
    (∃ tail, (send_login env otc ts pw r l (fuel + 1)).subs =
        ⟨ts, pw, otc.getD ""⟩ :: ⟨kt.2, ⟨env.password, kt.1⟩, code env⟩ :: tail) ∧
    ((send_login env otc ts pw r l (fuel + 1)).subs).map Submission.rsatimestamp =
      ts :: ((send_login env otc ts pw r l (fuel + 1)).fetches).map Prod.snd ∧
    ((send_login env otc ts pw r l (fuel + 1)).fetches).head? = some kt := by
  have hsl : send_login env otc ts pw r l (fuel + 1) =
      ⟨wrap_http (send_login_request env (some (code env)) r (l + 1) (fuel + 1)).result,
        (send_login_request env (some (code env)) r (l + 1) (fuel + 1)).fetches,
        ⟨ts, pw, otc.getD ""⟩ ::
          (send_login_request env (some (code env)) r (l + 1) (fuel + 1)).subs⟩ := by
    simp [send_login, htf]
  have hreq := send_login_request_succ env (some (code env)) r (l + 1) fuel
  rw [hfetch] at hreq
  obtain ⟨tail, htail⟩ := send_login_subs_head env (some (code env)) kt.2
    ⟨env.password, kt.1⟩ (r + used) (l + 1) fuel
  refine ⟨⟨tail, ?_⟩, send_login_aligned env otc ts pw r l (fuel + 1), ?_⟩
  · rw [hsl]
    simp [hreq, htail]
  · rw [hsl]
    simp [hreq]

/-- C8 witness: submission 0 of `env_twofactor` demands two-factor; the
restarted cycle fetches key 101 with timestamp ts1 and submits the
locally generated code. -/
theorem c8_twofactor_restart_witness :
    (∃ tail, (send_login env_twofactor none "stale" ⟨"hunter2", ⟨1, 1⟩⟩ 1 0 1).subs =
        ⟨"stale", ⟨"hunter2", ⟨1, 1⟩⟩, ""⟩ ::
          ⟨"ts1", ⟨"hunter2", ⟨101, 17⟩⟩, code env_twofactor⟩ :: tail) ∧
    ((send_login env_twofactor none "stale" ⟨"hunter2", ⟨1, 1⟩⟩ 1 0 1).subs).map
        Submission.rsatimestamp =
      "stale" ::
        ((send_login env_twofactor none "stale" ⟨"hunter2", ⟨1, 1⟩⟩ 1 0 1).fetches).map
          Prod.snd ∧
    ((send_login env_twofactor none "stale" ⟨"hunter2", ⟨1, 1⟩⟩ 1 0 1).fetches).head? =
      some (⟨101, 17⟩, "ts1") :=
  c8_twofactor_restart env_twofactor none "stale" ⟨"hunter2", ⟨1, 1⟩⟩ 1 0 0 1
    (⟨101, 17⟩, "ts1") rfl (fetch_rsa_params_immediate _ _ _ _ rfl)

/-- C4 (amended): for every login whose response contains the
`captcha_needed` key and whose `requires_twofactor` field is present and
falsy, `login` fails immediately with
`LoginError("A captcha code is required, please try again later")` (the
spec's `CaptchaRequired`), performs no side effects, and the login
submission is not retried: exactly one submission was made. -/
theorem c4_captcha_terminal (env : LoginEnv) (fuel used : Nat) (kt : RsaKey × String)
    (hfetch : fetch_rsa_params env.rsaResp 0 0 = (.ok kt, used))
    (htf : (env.loginResp 0).requires_twofactor = some false)
    (hcap : (env.loginResp 0).captcha_needed.isSome = true) :
    (login env (fuel + 1)).result = .error (.loginError captcha_message) ∧
    (login env (fuel + 1)).actions = [] ∧
    ((login env (fuel + 1)).flow.subs).length = 1 := by
  have hone := send_login_request_one env none 0 0 fuel used kt hfetch htf
  simp [login, hone, hcap]

/-- C4 witness: `env_captcha` answers with `captcha_needed` present and
`requires_twofactor` false. -/
theorem c4_captcha_terminal_witness :
    (login env_captcha 1).result = .error (.loginError captcha_message) ∧
    (login env_captcha 1).actions = [] ∧
    ((login env_captcha 1).flow.subs).length = 1 :=
  c4_captcha_terminal env_captcha 0 1 (⟨100, 17⟩, "ts0")
    (fetch_rsa_params_immediate _ _ _ _ rfl) rfl rfl

/-- C4 counterexample: a login response that contains the
`captcha_needed` key but also signals a two-factor requirement does not
fail with the captcha error — the two-factor check of `_send_login`
(line 210) runs first, the submission is retried (two submissions), and
the login succeeds on the second response. -/
theorem c4_counterexample :
    (env_captcha_tf.loginResp 0).captcha_needed = some true ∧
    (login env_captcha_tf 2).result = .ok () ∧
    ((login env_captcha_tf 2).flow.subs).length = 2 := by
  have hf0 : fetch_rsa_params env_captcha_tf.rsaResp 0 0 = (.ok (⟨100, 17⟩, "ts0"), 1) :=
    fetch_rsa_params_immediate _ _ _ _ rfl
  have hf1 : fetch_rsa_params env_captcha_tf.rsaResp 1 0 = (.ok (⟨101, 17⟩, "ts1"), 1) :=
    fetch_rsa_params_immediate _ _ _ _ rfl
  have hinner := send_login_request_one env_captcha_tf (some (code env_captcha_tf))
    1 1 0 1 (⟨101, 17⟩, "ts1") hf1 rfl
  have houter : send_login_request env_captcha_tf none 0 0 2 =
      ⟨.ok resp_success, [(⟨100, 17⟩, "ts0"), (⟨101, 17⟩, "ts1")],
        [⟨"ts0", ⟨"hunter2", ⟨100, 17⟩⟩, ""⟩,
          ⟨"ts1", ⟨"hunter2", ⟨101, 17⟩⟩, code env_captcha_tf⟩]⟩ := by
    have h2 : (2 : Nat) = 1 + 1 := rfl
    rw [h2]
    have hsucc := send_login_request_succ env_captcha_tf none 0 0 1
    rw [hf0] at hsucc
    rw [hsucc]
    have htf0 : (env_captcha_tf.loginResp 0).requires_twofactor = some true := rfl
    simp only [send_login, htf0]
    have hresp1 : env_captcha_tf.loginResp 1 = resp_success := rfl
    have hpw : env_captcha_tf.password = "hunter2" := rfl
    norm_num [hinner, wrap_http, hresp1, hpw, resp_success]
  have hsid : env_captcha_tf.homeSessionId = some "sessionid123" := rfl
  have hprof : env_captcha_tf.profileResult = .ok () := rfl
  refine ⟨rfl, ?_, ?_⟩ <;> simp [login, houter, resp_success, hsid, hprof]

/-- C9: for every login whose RSA fetch succeeds and whose response has
no two-factor requirement, no captcha key, truthy success, transfer
parameters and urls present, a session id extracted from the home page
and a successful profile fetch, the login succeeds: the session is
established (`logged_in` set to true), the `login` event is dispatched
exactly once, and the background polling task — identified with the
spec's Trade Poller, see `trade_poller_task` — is started; exactly one
submission was made. -/
theorem c9_login_success (env : LoginEnv) (fuel used : Nat) (kt : RsaKey × String)
    (params : List (String × String)) (urls : List String) (sid : String)
    (hfetch : fetch_rsa_params env.rsaResp 0 0 = (.ok kt, used))
    (htf : (env.loginResp 0).requires_twofactor = some false)
    (hcap : (env.loginResp 0).captcha_needed = none)
    (hsucc : (env.loginResp 0).success = some true)
    (hparams : (env.loginResp 0).transfer_parameters = some params)
    (hurls : (env.loginResp 0).transfer_urls = some urls)
    (hsid : env.homeSessionId = some sid)
    (hprof : env.profileResult = .ok ()) :
    (login env (fuel + 1)).result = .ok () ∧
    (login env (fuel + 1)).actions =
      urls.map Action.post ++
        [.setLoggedIn true, .dispatch "login", .createTask trade_poller_task] ∧
    ((login env (fuel + 1)).actions).count (.dispatch "login") = 1 ∧
    Action.setLoggedIn true ∈ (login env (fuel + 1)).actions ∧
    Action.createTask trade_poller_task ∈ (login env (fuel + 1)).actions ∧
    ((login env (fuel + 1)).flow.subs).length = 1 := by
  have hone := send_login_request_one env none 0 0 fuel used kt hfetch htf
  have hact : (login env (fuel + 1)).actions =
      urls.map Action.post ++
        [.setLoggedIn true, .dispatch "login", .createTask trade_poller_task] := by
    simp [login, hone, hcap, hsucc, hparams, hurls, hsid, hprof]
  have hcount : ((login env (fuel + 1)).actions).count (.dispatch "login") = 1 := by
    rw [hact, List.count_append]
    have h0 : (urls.map Action.post).count (Action.dispatch "login") = 0 := by
      rw [List.count_eq_zero]
      simp
    rw [h0]
    rfl
  refine ⟨?_, hact, hcount, ?_, ?_, ?_⟩
  · simp [login, hone, hcap, hsucc, hparams, hurls, hsid, hprof]
  · rw [hact]; simp
  · rw [hact]; simp
  · simp [login, hone, hcap, hsucc, hparams, hurls, hsid, hprof]

/-- C9 witness: `env_valid` logs in, dispatches `login` once, sets the
flag and starts the poller task. -/
theorem c9_login_success_witness :
    (login env_valid 1).result = .ok () ∧
    (login env_valid 1).actions =
      ["https://store/transfer"].map Action.post ++
        [.setLoggedIn true, .dispatch "login", .createTask trade_poller_task] ∧
    ((login env_valid 1).actions).count (.dispatch "login") = 1 ∧
    Action.setLoggedIn true ∈ (login env_valid 1).actions ∧
    Action.createTask trade_poller_task ∈ (login env_valid 1).actions ∧
    ((login env_valid 1).flow.subs).length = 1 :=
  c9_login_success env_valid 0 1 (⟨100, 17⟩, "ts0") [("steamid", "76561199")]
    ["https://store/transfer"] "sessionid123"
    (fetch_rsa_params_immediate _ _ _ _ rfl) rfl rfl rfl rfl rfl rfl rfl

/-- C1: on successive snapshots A = ("123" at state 2) and
B = ("123" at state 3), the spec's diff reports exactly the id "123",
present in both with differing values — but the code's iteration raises
`TypeError` (it rebinds `trades_cache` to a key and then subscripts that
string with itself) before any `trade_receive` dispatch, so the code
dispatches for no id at all; the only non-crashing unequal case (an
empty side) also dispatches nothing.  The loop body never dispatches
exactly the changed-in-both ids. -/
theorem c1_poll_diff_code_bug :
    poll_trades_iteration [("123", 2)] [("123", 3)] = .error .typeError ∧
    spec_trade_diff [("123", 2)] [("123", 3)] = ["123"] ∧
    poll_trades_iteration [("123", 2)] [("123", 2)] = .ok ([], [("123", 2)]) :=
  ⟨rfl, rfl, rfl⟩

/-- C7: both recovery paths of `_get_trade_offers` do retry — two
fetches are issued — but the recursive call's snapshot is discarded (the
`except` branches lack a `return`), so the caller receives `None`
instead of the snapshot fetched on retry, both after a transport
disconnect and after a session-invalidation re-login. -/
theorem c7_recovery_discards_snapshot :
    get_trade_offers env_disconnect 0 2 = (.ok none, 2) ∧
    get_trade_offers env_relogin 0 2 = (.ok none, 2) ∧
    (get_trade_offers env_disconnect 0 2).1 ≠ .ok (some [("123", 2)]) := by
  have hd : get_trade_offers env_disconnect 0 2 = (.ok none, 2) := rfl
  have hv : get_trade_offers env_relogin 0 2 = (.ok none, 2) := rfl
  exact ⟨hd, hv, by rw [hd]; simp⟩

/-- C3: for every accept-trade call whose response demands mobile
confirmation while `identity_secret` is unset (`None`), the call fails
with `ClientException("Accepting trades requires an identity_secret")`
(the spec's `ConfirmationUnavailable`) and performs zero confirmation
lookups, zero confirm attempts and no sleep. -/
theorem c3_no_secret_no_lookup (env : AcceptEnv)
    (h : env.needs_mobile_confirmation = true) :
    accept_user_trade none env =
      (.error (.clientException "Accepting trades requires an identity_secret"),
        ⟨[], 0, 0⟩) := by
  simp [accept_user_trade, h, truthy_str]

/-- C3 witness: confirmation demanded, no identity secret. -/
theorem c3_no_secret_no_lookup_witness :
    accept_user_trade none env_accept_needs =
      (.error (.clientException "Accepting trades requires an identity_secret"),
        ⟨[], 0, 0⟩) :=
  c3_no_secret_no_lookup env_accept_needs rfl

/-- C6: with `identity_secret` set and mobile confirmation demanded the
code does sleep 2 seconds and locate the confirmation, but a first
failed confirm attempt already raises `SteamAuthenticatorError` (the
spec's `ConfirmationFailed`): exactly one confirm attempt is made, not
up to 3 — the unconditional `raise` inside the `range(3)` loop makes
retries unreachable. -/
theorem c6_confirm_not_retried :
    accept_user_trade (some "idsecret") env_accept_needs =
      (.error (.steamAuthenticatorError
        "Failed to except the trade, see the log for the response"),
        ⟨[2], 1, 1⟩) ∧
    (accept_user_trade (some "idsecret") env_accept_needs).2.confirms ≠ 3 := by
  have h : accept_user_trade (some "idsecret") env_accept_needs =
      (.error (.steamAuthenticatorError
        "Failed to except the trade, see the log for the response"),
        ⟨[2], 1, 1⟩) := rfl
  exact ⟨h, by rw [h]; simp⟩

end SteamHttp
